import Mathlib

/-!
Verification of the video-listing and publishing controller
(`src/controllers/video.controller.js`) of the Backend-project repository.

The controller builds MongoDB aggregation pipelines over a `videos`
collection joined with a `users` collection.  We embed the controller
shallowly: request parameters become a `Params` record, the document store
becomes a `Store` record, pipeline stages become an inductive `Stage`, and
the stage semantics are an executable evaluator over document lists.
Machine strings/numbers follow the JavaScript semantics of the source
(string truthiness, `parseInt` defaults, `Math.ceil` on division).
-/

deriving instance DecidableEq for Except

namespace VideoController

/-- A user document in the `users` collection (the fields the controller
reads: `_id`, and the three fields projected by the `$lookup` inner
pipeline). -/
structure UserDoc where
  uid : String
  username : String
  fullname : String
  avatar : String
deriving DecidableEq, Repr

/-- The owner summary produced by the `$lookup` inner
`$project {username: 1, fullname: 1, avatar: 1}`.  (MongoDB also retains
`_id` by default in such a projection; no later stage of the controller
reads it, so it is not modelled in the summary.) -/
structure Summary where
  username : String
  fullname : String
  avatar : String
deriving DecidableEq, Repr

/-- A video document in the `videos` collection, with the fields the
controller touches; `owner` is a reference (ObjectId) to a user, possibly
absent. -/
structure VideoDoc where
  title : String
  description : String
  videoFile : String
  thumbnail : String
  duration : Int
  views : Int
  isPublished : Bool
  owner : Option String
  createdAt : Int
  updatedAt : Int
deriving DecidableEq, Repr

/-- The `owner` field of a document flowing through the pipeline: before
the `$addFields` stage it is the stored reference; the
`$addFields {owner: {$first: "$ownerDetails"}}` stage overwrites it with
the (optional) embedded summary. -/
inductive OwnerVal where
  | ref (oid : Option String)
  | embed (s : Option Summary)
deriving DecidableEq, Repr

/-- A document flowing through the aggregation pipeline.  `ownerDetails`
is `none` until the `$lookup` stage adds it (as a list of matched user
summaries) and `none` again after the final `$project` drops it. -/
structure Doc where
  title : String
  description : String
  videoFile : String
  thumbnail : String
  duration : Int
  views : Int
  isPublished : Bool
  owner : OwnerVal
  ownerDetails : Option (List Summary)
  createdAt : Int
  updatedAt : Int
deriving DecidableEq, Repr

/-- Lift a stored video document into the pipeline document space. -/
def toDoc (v : VideoDoc) : Doc :=
  { title := v.title, description := v.description, videoFile := v.videoFile,
    thumbnail := v.thumbnail, duration := v.duration, views := v.views,
    isPublished := v.isPublished, owner := OwnerVal.ref v.owner,
    ownerDetails := none, createdAt := v.createdAt, updatedAt := v.updatedAt }

/-- The `$match` stage object built at lines 49-74 of the controller.
`owner` is the owner-equality condition; the assignment
`matchStage.owner = new mongoose.Types.isValidObjectId(userId)` at line 52
throws a TypeError before the assignment completes (see `basePipeline`),
so in reachable executions `owner` is always `none`.  `orText` is the
trimmed free-text query of the `$or` regex condition. -/
structure MatchStage where
  owner : Option String
  orText : Option String
deriving DecidableEq, Repr

/-- Sort key chosen at line 108: `createdAt` when `sortType === "date"`,
else `views`. -/
inductive SortKey where
  | createdAt
  | views
deriving DecidableEq, Repr

/-- One aggregation pipeline stage, as constructed by `getAllVideos`. -/
inductive Stage where
  | matchS (m : MatchStage)
  | lookupOwner
  | addFieldsOwnerFirst
  | sortS (key : SortKey) (order : Int)
  | projectS
  | skipS (n : Int)
  | limitS (n : Int)
  | countS (field : String)
deriving DecidableEq, Repr

/-- JavaScript `String.prototype.toLowerCase`, character by character
(the source only ever feeds it through the `$options: "i"` regex flag). -/
def toLowerStr (s : String) : String := ⟨s.data.map Char.toLower⟩

/-- JavaScript `String.prototype.trim`: strip leading and trailing
whitespace. -/
def trimStr (s : String) : String :=
  ⟨((s.data.dropWhile Char.isWhitespace).reverse.dropWhile Char.isWhitespace).reverse⟩

/-- Case-insensitive hexadecimal digit. -/
def isHexChar (c : Char) : Bool :=
  c.isDigit || (decide (c.toLower.toNat ≤ 102) && decide (97 ≤ c.toLower.toNat))

/-- `mongoose.isValidObjectId` on a string: a 24-character hex string or a
12-character string casts to an ObjectId. -/
def isValidObjectId (s : String) : Bool :=
  (s.length == 24 && s.toList.all isHexChar) || s.length == 12

/-- Whether `sub` occurs as a contiguous sub-list of the second list
(MongoDB `$regex` containment for a metacharacter-free pattern). -/
def subListOf (sub : List Char) : List Char → Bool
  | [] => sub.isEmpty
  | c :: cs => List.isPrefixOf sub (c :: cs) || subListOf sub cs

/-- `$regex` with `$options: "i"` for a metacharacter-free pattern:
case-insensitive substring containment of `pat` in `s`. -/
def regexMatchCI (pat s : String) : Bool :=
  subListOf (toLowerStr pat).data (toLowerStr s).data

/-- Semantics of the `$match` stage object on one document: MongoDB takes
the implicit conjunction of the object's conditions (owner equality, and
the `$or` of the two case-insensitive regexes on title/description). -/
def matchPred (m : MatchStage) (d : Doc) : Bool :=
  (match m.owner with
   | none => true
   | some oid => d.owner == OwnerVal.ref (some oid)) &&
  (match m.orText with
   | none => true
   | some t => regexMatchCI t d.title || regexMatchCI t d.description)

/-- The user summaries matched by the `$lookup` on
`localField: "owner"`/`foreignField: "_id"`, already projected by the
inner pipeline.  A missing local field matches no user.  (At the point the
`$lookup` runs, `owner` still holds the stored reference.) -/
def summariesFor (users : List UserDoc) (ov : OwnerVal) : List Summary :=
  match ov with
  | OwnerVal.ref oid =>
      (users.filter (fun u => some u.uid == oid)).map
        (fun u => { username := u.username, fullname := u.fullname, avatar := u.avatar })
  | OwnerVal.embed _ => []

/-- The `$lookup` stage on one document: attach the matched summaries as
`ownerDetails`. -/
def lookupStep (users : List UserDoc) (d : Doc) : Doc :=
  { d with ownerDetails := some (summariesFor users d.owner) }

/-- The `$addFields {owner: {$first: "$ownerDetails"}}` stage on one
document: overwrite `owner` with the first matched summary, or the empty
value when the join matched nothing. -/
def collapseStep (d : Doc) : Doc :=
  { d with owner := OwnerVal.embed (d.ownerDetails.getD []).head? }

/-- The `$lookup` stage followed by the collapse, on one document. -/
def enrichOne (users : List UserDoc) (d : Doc) : Doc :=
  collapseStep (lookupStep users d)

/-- The final `$project` stage on one document: it lists title,
description, videoFile, thumbnail, duration, views, isPublished,
createdAt, updatedAt and owner, so the only field it drops is
`ownerDetails`. -/
def projectStep (d : Doc) : Doc :=
  { d with ownerDetails := none }

/-- Sort-key accessor. -/
def sortKeyVal (k : SortKey) (d : Doc) : Int :=
  match k with
  | SortKey.createdAt => d.createdAt
  | SortKey.views => d.views

/-- Comparator for `$sort {field: order}`: ascending on the key when
`order = 1`, descending otherwise. -/
def sortLe (k : SortKey) (o : Int) (a b : Doc) : Bool :=
  if o == 1 then decide (sortKeyVal k a ≤ sortKeyVal k b)
  else decide (sortKeyVal k b ≤ sortKeyVal k a)

/-- Insert into a sorted list (insertion-sort model of `$sort`). -/
def insertDoc (le : Doc → Doc → Bool) (d : Doc) : List Doc → List Doc
  | [] => [d]
  | e :: es => if le d e then d :: e :: es else e :: insertDoc le d es

/-- Insertion-sort model of the `$sort` stage. -/
def sortDocs (k : SortKey) (o : Int) : List Doc → List Doc
  | [] => []
  | d :: ds => insertDoc (sortLe k o) d (sortDocs k o ds)

/-- Semantics of one (non-counting) stage on a document list. -/
def evalStage (users : List UserDoc) (docs : List Doc) : Stage → List Doc
  | Stage.matchS m => docs.filter (matchPred m)
  | Stage.lookupOwner => docs.map (lookupStep users)
  | Stage.addFieldsOwnerFirst => docs.map collapseStep
  | Stage.sortS k o => sortDocs k o docs
  | Stage.projectS => docs.map projectStep
  | Stage.skipS n => docs.drop n.toNat
  | Stage.limitS n => docs.take n.toNat
  | Stage.countS _ => docs

/-- The result of running an aggregation pipeline: either a document list,
or the output of a `$count` stage.  `$count` emits a single
`{field: n}` document when `n > 0` and no document when the input is
empty; we record that output as `Option Nat`. -/
inductive AggResult where
  | docs (l : List Doc)
  | countRes (n : Option Nat)
deriving DecidableEq, Repr

/-- Run a pipeline stage list.  The controller's `$count` stage is the
last stage of the count pipeline, so no stage follows it. -/
def evalStages (users : List UserDoc) (docs : List Doc) : List Stage → AggResult
  | [] => AggResult.docs docs
  | Stage.countS _ :: _ => AggResult.countRes (if docs.length == 0 then none else some docs.length)
  | s :: rest => evalStages users (evalStage users docs s) rest

/-- `countResult[0]?.totalVideos || 0` of the controller: the count when
the count pipeline emitted one, else `0` (optional chaining on an empty
array, or a document without the field, gives `undefined`, and `|| 0`
turns it into `0`). -/
def totalOf (r : AggResult) : Nat :=
  match r with
  | AggResult.countRes n => n.getD 0
  | AggResult.docs _ => 0

/-- The document list of a data-pipeline run. -/
def docsOf (r : AggResult) : List Doc :=
  match r with
  | AggResult.docs l => l
  | AggResult.countRes _ => []

/-- The status classification of an error response.  The `ApiError`
constructor of the source takes the status code positionally first; the
`catch` block at line 203 passes a string there. -/
inductive StatusVal where
  | num (n : Int)
  | str (s : String)
deriving DecidableEq, Repr

/-- An error thrown by the controller.  Modelled from the spec: the
`ApiError` utility class is outside `src/`; per the spec it carries "a
status classification and message", taken positionally as
`(statusCode, message)`, the message being absent when the call site
passes only one argument.  `js` is a raw JavaScript `TypeError` escaping
the handler. -/
inductive Err where
  | api (statusCode : StatusVal) (message : Option String)
  | js (msg : String)
deriving DecidableEq, Repr

/-- The request parameters of `getAllVideos` after the destructuring
defaults of line 18.  `page` and `limit` are modelled as the `parseInt`
of the query-string values (default `1` and `10`); the optional string
parameters are `none` when absent from the query string (the
destructuring default then applies to `sortBy`/`sortType`), and may be
the empty string when supplied empty. -/
structure Params where
  page : Int := 1
  limit : Int := 10
  query : Option String := none
  sortBy : Option String := none
  sortType : Option String := none
  userId : Option String := none
deriving DecidableEq, Repr

/-- `sortBy` after the destructuring default `"desc"`. -/
def sortByV (p : Params) : String := p.sortBy.getD "desc"

/-- `sortType` after the destructuring default `"date"`. -/
def sortTypeV (p : Params) : String := p.sortType.getD "date"

/-- Line 25: `sortBy && !["asc", "desc"].includes(sortBy)` — a truthy
(non-empty) `sortBy` outside the accepted literals. -/
def sortByBad (p : Params) : Bool :=
  !(sortByV p == "") && !(sortByV p == "asc" || sortByV p == "desc")

/-- Line 29: `sortType && !["date", "views"].includes(sortType)`. -/
def sortTypeBad (p : Params) : Bool :=
  !(sortTypeV p == "") && !(sortTypeV p == "date" || sortTypeV p == "views")

/-- JavaScript truthiness of the `userId` parameter (absent or empty
string is falsy). -/
def userIdTruthy (p : Params) : Bool :=
  match p.userId with
  | some u => !(u == "")
  | none => false

/-- The supplied `userId` (only read under `userIdTruthy`). -/
def uidOf (p : Params) : String := p.userId.getD ""

/-- Line 64: `query && query.trim() !== ""` — the free-text condition is
applied only when `query` is truthy and non-blank after trimming. -/
def queryActive (p : Params) : Bool :=
  match p.query with
  | some q => !(q == "") && !(trimStr q == "")
  | none => false

/-- The supplied free-text query (only read under `queryActive`). -/
def queryOf (p : Params) : String := p.query.getD ""

/-- Line 108: `sortType === "date" ? "createdAt" : "views"`. -/
def sortFieldOf (p : Params) : SortKey :=
  if sortTypeV p == "date" then SortKey.createdAt else SortKey.views

/-- Line 109: `sortBy === "asc" ? 1 : -1`. -/
def sortOrderOf (p : Params) : Int :=
  if sortByV p == "asc" then 1 else -1

/-- Line 133: `skip = (parseInt(page) - 1) * parseInt(limit)`. -/
def skipOf (p : Params) : Int := (p.page - 1) * p.limit

/-- `Object.keys(matchStage).length > 0` at line 72. -/
def matchNonempty (m : MatchStage) : Bool :=
  m.owner.isSome || m.orText.isSome

/-- Lines 49-74: the `$match` object as built when `userId` is falsy
(only the free-text `$or` condition can be present; see `basePipeline`
for the `userId` case). -/
def matchStageOf (p : Params) : MatchStage :=
  { owner := none,
    orText := if queryActive p then some (trimStr (queryOf p)) else none }

/-- The four stages every pipeline of the controller ends its shared part
with (lines 77-128): lookup, collapse, sort, projection. -/
def fixedTail (p : Params) : List Stage :=
  [Stage.lookupOwner, Stage.addFieldsOwnerFirst,
   Stage.sortS (sortFieldOf p) (sortOrderOf p), Stage.projectS]

/-- Lines 46-128: the stage list shared by the data and count pipelines
(filter, lookup, collapse, sort, projection).  When `userId` is truthy,
line 52 evaluates `new mongoose.Types.isValidObjectId(userId)`;
`mongoose.Types.isValidObjectId` is not a constructor (the validator
lives on `mongoose` itself, not on `mongoose.Types`), so the expression
throws a TypeError before the owner condition is ever assigned. -/
def basePipeline (p : Params) : Except Err (List Stage) :=
  if userIdTruthy p then
    Except.error (Err.js "TypeError: mongoose.Types.isValidObjectId is not a constructor")
  else
    Except.ok
      ((if matchNonempty (matchStageOf p) then [Stage.matchS (matchStageOf p)] else []) ++
       fixedTail p)

/-- Lines 139-150: the data pipeline appends `$skip`/`$limit` to a copy of
the shared stages; the count pipeline instead appends
`$count: "totalVideos"`.  The copy is taken by array spread, so the two
lists are independent. -/
def pipelinesOf (p : Params) : Except Err (List Stage × List Stage) :=
  (basePipeline p).map
    (fun pre =>
      (pre ++ [Stage.skipS (skipOf p), Stage.limitS p.limit],
       pre ++ [Stage.countS "totalVideos"]))

/-- The document store visible to the controller, with two flags modelling
whether the store rejects the data-pipeline and count-pipeline aggregate
calls (`Promise.all` at line 156 rejects when either does). -/
structure Store where
  videos : List VideoDoc
  users : List UserDoc
  dataFails : Bool
  countFails : Bool
deriving DecidableEq, Repr

/-- `User.findById(userId)` at line 39, as an existence check. -/
def userExistsIn (users : List UserDoc) (uid : String) : Bool :=
  users.any (fun u => u.uid == uid)

/-- The documents returned by the data query (lines 156-157). -/
def dataQueryDocs (p : Params) (st : Store) : List Doc :=
  match pipelinesOf p with
  | Except.ok pr => docsOf (evalStages st.users (st.videos.map toDoc) pr.1)
  | Except.error _ => []

/-- `totalVideos` extracted from the count query (lines 158, 163). -/
def countQueryTotal (p : Params) (st : Store) : Nat :=
  match pipelinesOf p with
  | Except.ok pr => totalOf (evalStages st.users (st.videos.map toDoc) pr.2)
  | Except.error _ => 0

/-- `Math.ceil(a / b)` on integers with `b > 0`. -/
def jsCeilDiv (a b : Int) : Int := -(Int.fdiv (-a) b)

/-- The pagination block of a successful response. -/
structure Pagination where
  currentPage : Int
  totalVideos : Nat
  totalPages : Int
  hasPrevPage : Bool
  hasNextPage : Bool
deriving DecidableEq, Repr

/-- The data payload of a successful response. -/
structure RespData where
  videos : List Doc
  pagination : Pagination
deriving DecidableEq, Repr

/-- A successful `ApiResponse` together with the HTTP status set by
`res.status`. -/
structure Resp where
  statusCode : Int
  data : RespData
  message : String
deriving DecidableEq, Repr

/-- The `getAllVideos` controller (lines 9-205): validation, pipeline
construction, concurrent execution of the data and count queries wrapped
in try/catch, and response composition. -/
def getAllVideos (p : Params) (st : Store) : Except Err Resp :=
  if sortByBad p then
    Except.error (Err.api (StatusVal.num 400)
      (some "sortBy must be either \x27asc\x27 or \x27desc\x27 "))
  else if sortTypeBad p then
    Except.error (Err.api (StatusVal.num 400)
      (some "sortType must be either \x27date\x27 or \x27views\x27"))
  else if userIdTruthy p && !(isValidObjectId (uidOf p)) then
    Except.error (Err.api (StatusVal.num 400) (some "Invalid user ID format"))
  else if userIdTruthy p && !(userExistsIn st.users (uidOf p)) then
    Except.error (Err.api (StatusVal.num 400) (some "User does not exist"))
  else
    match pipelinesOf p with
    | Except.error e => Except.error e
    | Except.ok pr =>
      if st.dataFails || st.countFails then
        Except.error (Err.api
          (StatusVal.str "Something went wrong while fetching the videos") none)
      else
        let videos := docsOf (evalStages st.users (st.videos.map toDoc) pr.1)
        let totalVideos := totalOf (evalStages st.users (st.videos.map toDoc) pr.2)
        let totalPages := jsCeilDiv (Int.ofNat totalVideos) p.limit
        if videos.isEmpty then
          Except.ok
            { statusCode := 200,
              data :=
                { videos := [],
                  pagination :=
                    { currentPage := p.page, totalPages := 0, totalVideos := 0,
                      hasPrevPage := false, hasNextPage := false } },
              message := "Videos doesn\x27t exist" }
        else
          Except.ok
            { statusCode := 200,
              data :=
                { videos := videos,
                  pagination :=
                    { currentPage := p.page, totalVideos := totalVideos,
                      totalPages := totalPages,
                      hasPrevPage := decide (p.page > 1),
                      hasNextPage := decide (p.page < totalPages) } },
              message := "Videos fetched successfully" }

/-- A pagination stage (`$skip` or `$limit`). -/
def pagingStage : Stage → Bool
  | Stage.skipS _ => true
  | Stage.limitS _ => true
  | _ => false

/-- Not a `$count` stage. -/
def stageNotCount : Stage → Bool
  | Stage.countS _ => false
  | _ => true

/-- The request body of `publishAVideo` (line 208). -/
structure PublishBody where
  title : Option String := none
  description : Option String := none
deriving DecidableEq, Repr

/-- `req.files` as populated by the upload middleware: the two field
arrays hold local file paths. -/
structure PublishFiles where
  thumbnail : List String := []
  videoFile : List String := []
deriving DecidableEq, Repr

/-- The result of a successful `uploadCloudinary` call on one path (a
falsy result at lines 249-255 is modelled as `none` from the
collaborator). -/
structure UploadedFile where
  url : String
  duration : Option Int := none
deriving DecidableEq, Repr

/-- A JavaScript value stored in a document field. -/
inductive JsVal where
  | str (s : String)
  | num (n : Int)
  | bool (b : Bool)
deriving DecidableEq, Repr

/-- The record passed to `Video.create` at lines 259-265.  Note that the
`description` field holds the Boolean `description.trim().length > 10`,
not the description text. -/
structure VideoCreate where
  thumbnail : String
  videoFile : String
  title : String
  description : JsVal
  duration : Int
deriving DecidableEq, Repr

/-- JavaScript truthiness of an optional string (absent or empty string
is falsy). -/
def strTruthy (s : Option String) : Bool :=
  match s with
  | some v => !(v == "")
  | none => false

/-- Lines 207-265 of the controller: `publishAVideo` up to and including
the `Video.create` call, returning the record it creates.  `cloud` is
the `uploadCloudinary` collaborator.  (The subsequent
`findById`/`populate` re-read and the 201 response do not alter the
created record and are outside the claims.) -/
def publishAVideo (body : PublishBody) (files : PublishFiles)
    (cloud : String → Option UploadedFile) : Except Err VideoCreate :=
  if !(strTruthy body.title) then
    Except.error (Err.api (StatusVal.num 400) (some "Title is required"))
  else if !(strTruthy body.description) then
    Except.error (Err.api (StatusVal.num 400) (some "Description is required"))
  else
    match files.thumbnail.head? with
    | none => Except.error (Err.api (StatusVal.num 401) (some "Thumbnail file is required"))
    | some tp =>
      match files.videoFile.head? with
      | none => Except.error (Err.api (StatusVal.num 401) (some "Media file is required"))
      | some vp =>
        match cloud tp with
        | none => Except.error (Err.api (StatusVal.num 400) (some "Thumbnail file is mandatory"))
        | some thumb =>
          match cloud vp with
          | none => Except.error (Err.api (StatusVal.num 400) (some "Media file is mandatory"))
          | some vf =>
            Except.ok
              { thumbnail := thumb.url,
                videoFile := vf.url,
                title := trimStr (body.title.getD ""),
                description :=
                  JsVal.bool (decide ((trimStr (body.description.getD "")).length > 10)),
                duration := vf.duration.getD 0 }

lemma basePipeline_shape {p : Params} {pre : List Stage}
    (h : basePipeline p = Except.ok pre) :
    pre = (if matchNonempty (matchStageOf p) then [Stage.matchS (matchStageOf p)] else []) ++
          fixedTail p := by
  unfold basePipeline at h
  split at h
  · exact absurd h (by simp)
  · simp only [Except.ok.injEq] at h
    exact h.symm

lemma basePipeline_all_stages {p : Params} {pre : List Stage}
    (h : basePipeline p = Except.ok pre) :
    pre.all (fun s => !(pagingStage s) && stageNotCount s) = true := by
  rw [basePipeline_shape h]
  split <;> simp [fixedTail, pagingStage, stageNotCount]

/-- C1: whenever `getAllVideos` builds its pipelines, the data pipeline is
the shared filter/lookup/collapse/sort/projection stage list followed by
`$skip` and `$limit`, the count pipeline is the same shared list followed
by the single `$count: "totalVideos"` stage, and the count pipeline
contains no `$skip` or `$limit` stage. -/
theorem c1_count_data_pipelines_agree (p : Params) (pre : List Stage)
    (h : basePipeline p = Except.ok pre) :
    pipelinesOf p = Except.ok
      (pre ++ [Stage.skipS (skipOf p), Stage.limitS p.limit],
       pre ++ [Stage.countS "totalVideos"]) ∧
    (pre ++ [Stage.countS "totalVideos"]).all (fun s => !(pagingStage s)) = true := by
  constructor
  · simp [pipelinesOf, h, Except.map]
  · have hall := basePipeline_all_stages h
    rw [List.all_eq_true] at hall
    rw [List.all_eq_true]
    intro s hs
    rcases List.mem_append.mp hs with hs1 | hs2
    · have hmem := hall s hs1
      simp only [Bool.and_eq_true] at hmem
      simpa using hmem.1
    · have hcount : s = Stage.countS "totalVideos" := by simpa using hs2
      subst hcount
      simp [pagingStage]

theorem c1_count_data_pipelines_agree_witness :
    pipelinesOf ({} : Params) = Except.ok
      ([Stage.lookupOwner, Stage.addFieldsOwnerFirst,
        Stage.sortS SortKey.createdAt (-1), Stage.projectS] ++
         [Stage.skipS 0, Stage.limitS 10],
       [Stage.lookupOwner, Stage.addFieldsOwnerFirst,
        Stage.sortS SortKey.createdAt (-1), Stage.projectS] ++
         [Stage.countS "totalVideos"]) :=
  (c1_count_data_pipelines_agree {}
    [Stage.lookupOwner, Stage.addFieldsOwnerFirst,
     Stage.sortS SortKey.createdAt (-1), Stage.projectS] (by decide)).1

/-- C6: with an owner filter present (and the sort parameters passing
their checks), a malformed identifier fails with the 400 error
"Invalid user ID format", and a well-formed identifier matching no user
fails with the 400 error "User does not exist" — same error kind,
different messages — in both cases for every content of the videos
collection and store-failure flags, i.e. before the listing queries
execute. -/
theorem c6_userId_validation (p : Params) (users : List UserDoc)
    (hsb : sortByBad p = false) (hst : sortTypeBad p = false)
    (huid : userIdTruthy p = true) :
    (isValidObjectId (uidOf p) = false →
      ∀ videos df cf, getAllVideos p ⟨videos, users, df, cf⟩ =
        Except.error (Err.api (StatusVal.num 400) (some "Invalid user ID format"))) ∧
    (isValidObjectId (uidOf p) = true → userExistsIn users (uidOf p) = false →
      ∀ videos df cf, getAllVideos p ⟨videos, users, df, cf⟩ =
        Except.error (Err.api (StatusVal.num 400) (some "User does not exist"))) := by
  constructor
  · intro hv videos df cf
    simp [getAllVideos, hsb, hst, huid, hv]
  · intro hv hex videos df cf
    simp [getAllVideos, hsb, hst, huid, hv, hex]

theorem c6_userId_validation_witness :
    getAllVideos { userId := some "zz" }
      { videos := [], users := [], dataFails := false, countFails := false } =
      Except.error (Err.api (StatusVal.num 400) (some "Invalid user ID format")) ∧
    getAllVideos { userId := some "bbbbbbbbbbbbbbbbbbbbbbbb" }
      { videos := [], users := [], dataFails := false, countFails := false } =
      Except.error (Err.api (StatusVal.num 400) (some "User does not exist")) :=
  ⟨(c6_userId_validation { userId := some "zz" } []
      (by decide) (by decide) (by decide)).1 (by decide) [] false false,
   (c6_userId_validation { userId := some "bbbbbbbbbbbbbbbbbbbbbbbb" } []
      (by decide) (by decide) (by decide)).2 (by decide) (by decide) [] false false⟩

/-- C2 (code bug): with a well-formed owner filter that resolves to an
existing user, `getAllVideos` does not build an owner-equality filter at
all — line 52 evaluates `new mongoose.Types.isValidObjectId(userId)`,
which is not a constructor, so the handler throws a TypeError instead of
returning the owner's videos. -/
theorem c2_owner_filter_crashes (p : Params) (st : Store)
    (hsb : sortByBad p = false) (hst : sortTypeBad p = false)
    (huid : userIdTruthy p = true)
    (hv : isValidObjectId (uidOf p) = true)
    (hex : userExistsIn st.users (uidOf p) = true) :
    getAllVideos p st =
      Except.error (Err.js "TypeError: mongoose.Types.isValidObjectId is not a constructor") := by
  simp [getAllVideos, hsb, hst, huid, hv, hex, pipelinesOf, basePipeline, Except.map]

theorem c2_owner_filter_crashes_witness :
    getAllVideos { userId := some "aaaaaaaaaaaaaaaaaaaaaaaa" }
      { videos := [],
        users := [{ uid := "aaaaaaaaaaaaaaaaaaaaaaaa", username := "alice",
                    fullname := "Alice A", avatar := "av" }],
        dataFails := false, countFails := false } =
      Except.error (Err.js "TypeError: mongoose.Types.isValidObjectId is not a constructor") :=
  c2_owner_filter_crashes _ _ (by decide) (by decide) (by decide) (by decide) (by decide)

/-- C5: with only a free-text query present, the filter stage is the
`$or` of two case-insensitive substring matches against title and
description on the trimmed query, omitted when the query is blank after
trimming; but when the owner filter is present together with the
free-text query, no AND filter is built — the handler crashes with the
line-52 TypeError (code bug). -/
theorem c5_text_filter (p : Params) (q : String) (st : Store)
    (hq : p.query = some q) :
    (userIdTruthy p = false → queryActive p = true →
      basePipeline p = Except.ok
        (Stage.matchS { owner := none, orText := some (trimStr q) } :: fixedTail p)) ∧
    (userIdTruthy p = false → queryActive p = false →
      basePipeline p = Except.ok (fixedTail p)) ∧
    (∀ d : Doc, matchPred { owner := none, orText := some (trimStr q) } d =
      (regexMatchCI (trimStr q) d.title || regexMatchCI (trimStr q) d.description)) ∧
    (userIdTruthy p = true → sortByBad p = false → sortTypeBad p = false →
      isValidObjectId (uidOf p) = true → userExistsIn st.users (uidOf p) = true →
      getAllVideos p st =
        Except.error (Err.js "TypeError: mongoose.Types.isValidObjectId is not a constructor")) := by
  refine ⟨?_, ?_, ?_, ?_⟩
  · intro huid hqa
    simp [basePipeline, huid, matchStageOf, hqa, matchNonempty, queryOf, hq]
  · intro huid hqa
    simp [basePipeline, huid, matchStageOf, hqa, matchNonempty]
  · intro d
    simp [matchPred]
  · intro huid hsb hst hv hex
    simp [getAllVideos, hsb, hst, huid, hv, hex, pipelinesOf, basePipeline, Except.map]

theorem c5_text_filter_witness :
    basePipeline { query := some " Alp " } = Except.ok
      (Stage.matchS { owner := none, orText := some "Alp" } ::
        fixedTail { query := some " Alp " }) ∧
    getAllVideos { query := some " Alp ", userId := some "aaaaaaaaaaaaaaaaaaaaaaaa" }
      { videos := [],
        users := [{ uid := "aaaaaaaaaaaaaaaaaaaaaaaa", username := "alice",
                    fullname := "Alice A", avatar := "av" }],
        dataFails := false, countFails := false } =
      Except.error (Err.js "TypeError: mongoose.Types.isValidObjectId is not a constructor") :=
  ⟨(c5_text_filter { query := some " Alp " } " Alp "
      { videos := [], users := [], dataFails := false, countFails := false }
      rfl).1 (by decide) (by decide),
   (c5_text_filter { query := some " Alp ", userId := some "aaaaaaaaaaaaaaaaaaaaaaaa" } " Alp "
      { videos := [],
        users := [{ uid := "aaaaaaaaaaaaaaaaaaaaaaaa", username := "alice",
                    fullname := "Alice A", avatar := "av" }],
        dataFails := false, countFails := false }
      rfl).2.2.2 (by decide) (by decide) (by decide) (by decide) (by decide)⟩

/-- C4 counterexample: the empty string is not one of the accepted
`sortBy` literals, yet a request with `sortBy = ""` succeeds (the
truthiness guard at line 25 skips the check for a falsy value) instead of
failing with an InvalidArgument error. -/
theorem c4_empty_sortBy_accepted_cex :
    (("" == "asc") || ("" == "desc")) = false ∧
    getAllVideos { sortBy := some "" }
      { videos := [], users := [], dataFails := false, countFails := false } =
      Except.ok
        { statusCode := 200,
          data := { videos := [],
                    pagination := { currentPage := 1, totalVideos := 0, totalPages := 0,
                                    hasPrevPage := false, hasNextPage := false } },
          message := "Videos doesn\x27t exist" } := by
  exact ⟨by decide, by decide⟩

/-- C4 (amended): the four valid (sortBy, sortType) pairs map to the
documented key and direction, and any *non-empty* value outside the
accepted literals fails with a 400 error before any query executes; an
empty-string value skips validation (JavaScript truthiness) and falls to
the non-`asc` / non-`date` branch (descending / views). -/
theorem c4_sort_validation_amended (p : Params) (users : List UserDoc) :
    (sortTypeV p = "date" → sortFieldOf p = SortKey.createdAt) ∧
    (sortTypeV p = "views" → sortFieldOf p = SortKey.views) ∧
    (sortByV p = "asc" → sortOrderOf p = 1) ∧
    (sortByV p = "desc" → sortOrderOf p = -1) ∧
    (sortByBad p = true →
      ∀ videos df cf, getAllVideos p ⟨videos, users, df, cf⟩ =
        Except.error (Err.api (StatusVal.num 400)
          (some "sortBy must be either \x27asc\x27 or \x27desc\x27 "))) ∧
    (sortByBad p = false → sortTypeBad p = true →
      ∀ videos df cf, getAllVideos p ⟨videos, users, df, cf⟩ =
        Except.error (Err.api (StatusVal.num 400)
          (some "sortType must be either \x27date\x27 or \x27views\x27"))) ∧
    (sortByV p = "" → sortByBad p = false ∧ sortOrderOf p = -1) ∧
    (sortTypeV p = "" → sortTypeBad p = false ∧ sortFieldOf p = SortKey.views) := by
  refine ⟨?_, ?_, ?_, ?_, ?_, ?_, ?_, ?_⟩
  · intro h; simp [sortFieldOf, h]
  · intro h; simp [sortFieldOf, h]
  · intro h; simp [sortOrderOf, h]
  · intro h; simp [sortOrderOf, h]
  · intro h videos df cf; simp [getAllVideos, h]
  · intro h1 h2 videos df cf; simp [getAllVideos, h1, h2]
  · intro h; exact ⟨by simp [sortByBad, h], by simp [sortOrderOf, h]⟩
  · intro h; exact ⟨by simp [sortTypeBad, h], by simp [sortFieldOf, h]⟩

theorem c4_sort_validation_amended_witness :
    getAllVideos { sortBy := some "up" }
      { videos := [], users := [], dataFails := false, countFails := false } =
      Except.error (Err.api (StatusVal.num 400)
        (some "sortBy must be either \x27asc\x27 or \x27desc\x27 ")) :=
  (c4_sort_validation_amended { sortBy := some "up" } []).2.2.2.2.1 (by decide) [] false false

/-- C9 (code bug): when either store call fails, the whole operation
fails with a single error and no partial result — but the `catch` block
calls the error constructor with only the message string, so the status
classification of the thrown error is that string, not a 5xx number. -/
theorem c9_store_failure (p : Params) (st : Store)
    (hsb : sortByBad p = false) (hst : sortTypeBad p = false)
    (huid : userIdTruthy p = false)
    (hfail : (st.dataFails || st.countFails) = true) :
    getAllVideos p st =
      Except.error (Err.api
        (StatusVal.str "Something went wrong while fetching the videos") none) ∧
    ∀ n msg, getAllVideos p st ≠ Except.error (Err.api (StatusVal.num n) msg) := by
  have hmain : getAllVideos p st =
      Except.error (Err.api
        (StatusVal.str "Something went wrong while fetching the videos") none) := by
    simp [getAllVideos, hsb, hst, huid, pipelinesOf, basePipeline, Except.map, hfail]
  refine ⟨hmain, ?_⟩
  intro n msg hcon
  rw [hmain] at hcon
  exact absurd hcon (by simp)

theorem c9_store_failure_witness :
    getAllVideos {}
      { videos := [], users := [], dataFails := true, countFails := false } =
      Except.error (Err.api
        (StatusVal.str "Something went wrong while fetching the videos") none) :=
  (c9_store_failure {} _ (by decide) (by decide) (by decide) (by decide)).1

/-- C3 counterexample: with two stored videos, `page = 3` and
`limit = 1`, the count query reports 2 matching videos, so the claim
demands `totalPages = ceil(2/1) = 2` and `hasPrevPage = (3 > 1) = true`;
but the data page is empty, and the code then reports
`totalVideos = 0`, `totalPages = 0`, `hasPrevPage = false`. -/
theorem c3_empty_page_pagination_cex :
    countQueryTotal { page := 3, limit := 1 }
      { videos :=
          [{ title := "Alpha", description := "d1", videoFile := "f1", thumbnail := "t1",
             duration := 5, views := 3, isPublished := true, owner := none,
             createdAt := 1, updatedAt := 1 },
           { title := "beta", description := "d2", videoFile := "f2", thumbnail := "t2",
             duration := 6, views := 9, isPublished := true, owner := none,
             createdAt := 2, updatedAt := 2 }],
        users := [], dataFails := false, countFails := false } = 2 ∧
    jsCeilDiv 2 1 = 2 ∧
    ((3 : Int) > 1) = True ∧
    (getAllVideos { page := 3, limit := 1 }
      { videos :=
          [{ title := "Alpha", description := "d1", videoFile := "f1", thumbnail := "t1",
             duration := 5, views := 3, isPublished := true, owner := none,
             createdAt := 1, updatedAt := 1 },
           { title := "beta", description := "d2", videoFile := "f2", thumbnail := "t2",
             duration := 6, views := 9, isPublished := true, owner := none,
             createdAt := 2, updatedAt := 2 }],
        users := [], dataFails := false, countFails := false }).map
      (fun r => (r.data.pagination.totalVideos, r.data.pagination.totalPages,
                 r.data.pagination.hasPrevPage)) =
      Except.ok (0, 0, false) := by
  refine ⟨by decide, by decide, by simp, by decide⟩

/-- C3 (amended): a successful response reports `statusCode = 200` and
`currentPage = page`; when the returned video list is nonempty, its
pagination block satisfies `totalVideos = count-query total`,
`totalPages = ceil(totalVideos / limit)`, `hasPrevPage = (page > 1)` and
`hasNextPage = (page < totalPages)`; when the data query returns zero
records, the block is overridden to
`totalVideos = 0, totalPages = 0, hasPrevPage = false, hasNextPage = false`
regardless of the count query's result. -/
theorem c3_pagination_amended (p : Params) (st : Store) (r : Resp)
    (h : getAllVideos p st = Except.ok r) :
    (r.data.videos ≠ [] →
      r.data.pagination.totalVideos = countQueryTotal p st ∧
      r.data.pagination.totalPages =
        jsCeilDiv (Int.ofNat (countQueryTotal p st)) p.limit ∧
      r.data.pagination.hasPrevPage = decide (p.page > 1) ∧
      r.data.pagination.hasNextPage = decide (p.page < r.data.pagination.totalPages)) ∧
    (r.data.videos = [] →
      r.data.pagination =
        { currentPage := p.page, totalVideos := 0, totalPages := 0,
          hasPrevPage := false, hasNextPage := false }) ∧
    r.data.pagination.currentPage = p.page ∧
    r.statusCode = 200 := by
  unfold getAllVideos at h
  split at h
  · exact absurd h (by simp)
  split at h
  · exact absurd h (by simp)
  split at h
  · exact absurd h (by simp)
  split at h
  · exact absurd h (by simp)
  split at h
  case h_1 e heq => exact absurd h (by simp)
  case h_2 pr heq =>
    split at h
    · exact absurd h (by simp)
    · simp only [] at h
      split at h
      case isTrue hempty =>
        simp only [Except.ok.injEq] at h
        subst h
        refine ⟨fun hne => absurd rfl hne, fun _ => rfl, rfl, rfl⟩
      case isFalse hempty =>
        simp only [Except.ok.injEq] at h
        subst h
        refine ⟨fun _ => ?_, fun hemp => ?_, rfl, rfl⟩
        · refine ⟨?_, ?_, rfl, rfl⟩
          · simp [countQueryTotal, heq]
          · simp [countQueryTotal, heq]
        · exact absurd hemp (by simpa [List.isEmpty_iff] using hempty)

theorem c3_pagination_amended_witness :
    ({ statusCode := 200,
       data := { videos := [],
                 pagination := { currentPage := 1, totalVideos := 0, totalPages := 0,
                                 hasPrevPage := false, hasNextPage := false } },
       message := "Videos doesn\x27t exist" } : Resp).data.pagination =
      { currentPage := 1, totalVideos := 0, totalPages := 0,
        hasPrevPage := false, hasNextPage := false } :=
  (c3_pagination_amended {}
    { videos := [], users := [], dataFails := false, countFails := false }
    _ (by decide)).2.1 rfl

/-- C7: the owner-enrichment stages (`$lookup` then
`$addFields {owner: {$first: ...}}`) map every candidate video to itself
with an embedded optional owner summary: the output list has the same
length as the input (no video is dropped and no error is raised), each
video's embedded owner is the optional first summary matched by the left
outer join — a summary carrying exactly username, full name and avatar —
and a video whose owner reference matches no user keeps an empty embedded
owner. -/
theorem c7_lookup_collapse_left_outer_join (users : List UserDoc)
    (docs : List Doc) (d : Doc)
    (hmiss : summariesFor users d.owner = []) :
    evalStages users docs [Stage.lookupOwner, Stage.addFieldsOwnerFirst] =
      AggResult.docs (docs.map (enrichOne users)) ∧
    (docs.map (enrichOne users)).length = docs.length ∧
    (∀ e : Doc, (enrichOne users e).owner =
      OwnerVal.embed (summariesFor users e.owner).head?) ∧
    (enrichOne users d).owner = OwnerVal.embed none := by
  refine ⟨?_, by simp, ?_, ?_⟩
  · simp [evalStages, evalStage, enrichOne, Function.comp]
  · intro e
    simp [enrichOne, collapseStep, lookupStep]
  · simp [enrichOne, collapseStep, lookupStep, hmiss]

theorem c7_lookup_collapse_left_outer_join_witness :
    (enrichOne
      [{ uid := "aaaaaaaaaaaaaaaaaaaaaaaa", username := "alice",
         fullname := "Alice A", avatar := "av" }]
      { title := "t", description := "d", videoFile := "f", thumbnail := "th",
        duration := 1, views := 0, isPublished := true,
        owner := OwnerVal.ref (some "cccccccccccccccccccccccc"),
        ownerDetails := none, createdAt := 0, updatedAt := 0 }).owner =
      OwnerVal.embed none :=
  (c7_lookup_collapse_left_outer_join
    [{ uid := "aaaaaaaaaaaaaaaaaaaaaaaa", username := "alice",
       fullname := "Alice A", avatar := "av" }] []
    { title := "t", description := "d", videoFile := "f", thumbnail := "th",
      duration := 1, views := 0, isPublished := true,
      owner := OwnerVal.ref (some "cccccccccccccccccccccccc"),
      ownerDetails := none, createdAt := 0, updatedAt := 0 }
    (by decide)).2.2.2

lemma evalStages_append (users : List UserDoc) :
    ∀ l : List Stage, l.all stageNotCount = true →
      ∀ (docs : List Doc) (rest : List Stage),
        evalStages users docs (l ++ rest) =
          evalStages users (List.foldl (evalStage users) docs l) rest := by
  intro l
  induction l with
  | nil => intro _ docs rest; rfl
  | cons s t ih =>
    intro hl docs rest
    simp only [List.all_cons, Bool.and_eq_true] at hl
    cases s <;>
      first
        | simpa only [List.cons_append, evalStages, List.foldl] using
            ih hl.2 _ rest
        | simp [stageNotCount] at hl

/-- C8: for `page ≥ 1` and `limit ≥ 1`, the data pipeline is the shared
stage list followed by `$skip ((page-1)*limit)` and `$limit limit`;
evaluating it drops exactly `(page-1)*limit` documents from the shared
stages' output, takes at most `limit`, and so the data query returns at
most `limit` records. -/
theorem c8_skip_limit_stages (p : Params) (st : Store) (pre : List Stage)
    (_hpage : 1 ≤ p.page) (_hlim : 1 ≤ p.limit)
    (h : basePipeline p = Except.ok pre) :
    (pipelinesOf p).map Prod.fst =
      Except.ok (pre ++ [Stage.skipS ((p.page - 1) * p.limit), Stage.limitS p.limit]) ∧
    evalStages st.users (st.videos.map toDoc)
        (pre ++ [Stage.skipS ((p.page - 1) * p.limit), Stage.limitS p.limit]) =
      AggResult.docs
        (((List.foldl (evalStage st.users) (st.videos.map toDoc) pre).drop
            ((p.page - 1) * p.limit).toNat).take p.limit.toNat) ∧
    (dataQueryDocs p st).length ≤ p.limit.toNat := by
  have hnc : pre.all stageNotCount = true := by
    have hall := basePipeline_all_stages h
    rw [List.all_eq_true] at hall ⊢
    intro s hs
    exact (Bool.and_eq_true_iff.mp (hall s hs)).2
  have heval := evalStages_append st.users pre hnc (st.videos.map toDoc)
    [Stage.skipS ((p.page - 1) * p.limit), Stage.limitS p.limit]
  have hrun : evalStages st.users (st.videos.map toDoc)
      (pre ++ [Stage.skipS ((p.page - 1) * p.limit), Stage.limitS p.limit]) =
      AggResult.docs
        (((List.foldl (evalStage st.users) (st.videos.map toDoc) pre).drop
            ((p.page - 1) * p.limit).toNat).take p.limit.toNat) := by
    rw [heval]
    simp [evalStages, evalStage]
  refine ⟨by simp [pipelinesOf, h, Except.map, skipOf], hrun, ?_⟩
  have hdq : dataQueryDocs p st =
      ((List.foldl (evalStage st.users) (st.videos.map toDoc) pre).drop
          ((p.page - 1) * p.limit).toNat).take p.limit.toNat := by
    simp only [dataQueryDocs, pipelinesOf, h, Except.map]
    simpa [skipOf, docsOf] using congrArg docsOf hrun
  rw [hdq]
  calc (((List.foldl (evalStage st.users) (st.videos.map toDoc) pre).drop
            ((p.page - 1) * p.limit).toNat).take p.limit.toNat).length
      ≤ p.limit.toNat := by
        rw [List.length_take]
        exact Nat.min_le_left _ _

theorem c8_skip_limit_stages_witness :
    (dataQueryDocs { page := 2, limit := 1 }
      { videos :=
          [{ title := "Alpha", description := "d1", videoFile := "f1", thumbnail := "t1",
             duration := 5, views := 3, isPublished := true, owner := none,
             createdAt := 1, updatedAt := 1 },
           { title := "beta", description := "d2", videoFile := "f2", thumbnail := "t2",
             duration := 6, views := 9, isPublished := true, owner := none,
             createdAt := 2, updatedAt := 2 }],
        users := [], dataFails := false, countFails := false }).length ≤ 1 :=
  (c8_skip_limit_stages { page := 2, limit := 1 }
    { videos :=
        [{ title := "Alpha", description := "d1", videoFile := "f1", thumbnail := "t1",
           duration := 5, views := 3, isPublished := true, owner := none,
           createdAt := 1, updatedAt := 1 },
         { title := "beta", description := "d2", videoFile := "f2", thumbnail := "t2",
           duration := 6, views := 9, isPublished := true, owner := none,
           createdAt := 2, updatedAt := 2 }],
      users := [], dataFails := false, countFails := false }
    [Stage.lookupOwner, Stage.addFieldsOwnerFirst,
     Stage.sortS SortKey.createdAt (-1), Stage.projectS]
    (by decide) (by decide) (by decide)).2.2

/-- C10: every record created by a successful `publishAVideo` stores, as
its `description` field, the Boolean value of
`trimmed-description length > 10` — a Boolean, never the supplied
description string. -/
theorem c10_description_boolean (body : PublishBody) (files : PublishFiles)
    (cloud : String → Option UploadedFile) (d : String) (v : VideoCreate)
    (hd : body.description = some d)
    (h : publishAVideo body files cloud = Except.ok v) :
    v.description = JsVal.bool (decide ((trimStr d).length > 10)) ∧
    ∀ s : String, v.description ≠ JsVal.str s := by
  unfold publishAVideo at h
  split at h
  · exact absurd h (by simp)
  split at h
  · exact absurd h (by simp)
  split at h
  · exact absurd h (by simp)
  split at h
  · exact absurd h (by simp)
  split at h
  · exact absurd h (by simp)
  split at h
  · exact absurd h (by simp)
  simp only [Except.ok.injEq] at h
  subst h
  refine ⟨by simp [hd], ?_⟩
  intro s
  simp

theorem c10_description_boolean_witness :
    ({ thumbnail := "tp", videoFile := "vp", title := "My video",
       description := JsVal.bool false, duration := 7 } : VideoCreate).description =
      JsVal.bool (decide ((trimStr " short ").length > 10)) :=
  (c10_description_boolean
    { title := some "My video", description := some " short " }
    { thumbnail := ["tp"], videoFile := ["vp"] }
    (fun p => some { url := p, duration := some 7 }) " short " _
    rfl (by decide)).1

end VideoController
